import Mathlib

/-!
Shallow embedding of the deferred-rendering dissertation project
(Camera.cpp / Camera.h / DeferredSolution.cpp) over exact rationals.

Floating-point values are modelled as rationals; the C runtime's
transcendental functions (sinf, cosf, tanf, sqrtf) are modelled as an
abstract oracle `FloatMath`, so every definition stays executable and
every theorem quantifies over the oracle.
-/

namespace Deferred

/-- Oracle for the C runtime's transcendental float functions.
`sinf`, `cosf`, `tanf`, `sqrtf` are uninterpreted rational functions;
theorems that need trigonometric identities take them as hypotheses. -/
structure FloatMath where
  sinf : ℚ → ℚ
  cosf : ℚ → ℚ
  tanf : ℚ → ℚ
  sqrtf : ℚ → ℚ

/-- D3DXVECTOR3: a 3-component float vector. -/
structure D3DXVECTOR3 where
  x : ℚ
  y : ℚ
  z : ℚ
deriving DecidableEq

/-- 4x4 float matrix (D3DXMATRIX), row-major, row-vector convention:
entry `_rc` of the C++ struct is `M (r-1) (c-1)` here. -/
abbrev D3DXMATRIX := Matrix (Fin 4) (Fin 4) ℚ

/-- D3DXMatrixRotationX: rotation about the x-axis by `a` radians
(left-handed, row-vector convention). -/
def D3DXMatrixRotationX (fm : FloatMath) (a : ℚ) : D3DXMATRIX :=
  !![1, 0, 0, 0;
     0, fm.cosf a, fm.sinf a, 0;
     0, -(fm.sinf a), fm.cosf a, 0;
     0, 0, 0, 1]

/-- D3DXMatrixRotationY: rotation about the y-axis by `a` radians. -/
def D3DXMatrixRotationY (fm : FloatMath) (a : ℚ) : D3DXMATRIX :=
  !![fm.cosf a, 0, -(fm.sinf a), 0;
     0, 1, 0, 0;
     fm.sinf a, 0, fm.cosf a, 0;
     0, 0, 0, 1]

/-- D3DXMatrixRotationZ: rotation about the z-axis by `a` radians. -/
def D3DXMatrixRotationZ (fm : FloatMath) (a : ℚ) : D3DXMATRIX :=
  !![fm.cosf a, fm.sinf a, 0, 0;
     -(fm.sinf a), fm.cosf a, 0, 0;
     0, 0, 1, 0;
     0, 0, 0, 1]

/-- D3DXMatrixTranslation: translation by `(x, y, z)` (translation in the
fourth row, row-vector convention). -/
def D3DXMatrixTranslation (x y z : ℚ) : D3DXMATRIX :=
  !![1, 0, 0, 0;
     0, 1, 0, 0;
     0, 0, 1, 0;
     x, y, z, 1]

/-- D3DXMatrixInverse: the matrix inverse, computed as the classical
adjugate divided by the determinant. -/
def D3DXMatrixInverse (M : D3DXMATRIX) : D3DXMATRIX :=
  M.det⁻¹ • M.adjugate

/-- D3DXMatrixPerspectiveFovLH: standard left-handed perspective
projection from vertical field of view, aspect ratio and the near/far
clip distances (`yScale = cot(fovy/2)`, `xScale = yScale / aspect`). -/
def D3DXMatrixPerspectiveFovLH (fm : FloatMath) (fovy aspect zn zf : ℚ) : D3DXMATRIX :=
  !![(1 / fm.tanf (fovy / 2)) / aspect, 0, 0, 0;
     0, 1 / fm.tanf (fovy / 2), 0, 0;
     0, 0, zf / (zf - zn), 1;
     0, 0, -(zn * zf) / (zf - zn), 0]

/-- EStereoscopic: which eye (if any) a camera accessor should adjust for. -/
inductive EStereoscopic where
  | Monoscopic
  | StereoscopicLeft
  | StereoscopicRight
deriving DecidableEq

export EStereoscopic (Monoscopic StereoscopicLeft StereoscopicRight)

/-- CCamera: position/rotation, lens settings and the four cached
matrices (Camera.h). -/
structure CCamera where
  m_Position : D3DXVECTOR3
  m_Rotation : D3DXVECTOR3
  m_FOV : ℚ
  m_Aspect : ℚ
  m_NearClip : ℚ
  m_FarClip : ℚ
  m_WorldMatrix : D3DXMATRIX
  m_ViewMatrix : D3DXMATRIX
  m_ProjMatrix : D3DXMATRIX
  m_ViewProjMatrix : D3DXMATRIX

/-- CCamera::UpdateMatrices (Camera.cpp lines 32-52): world matrix is
`Rz * Rx * Ry * T`, view is its inverse, projection is built with
`D3DXMatrixPerspectiveFovLH` from `m_FOV`, `m_Aspect` and the clip
distances, and the combined matrix is `view * proj`.  The source also
computes a local `aspect = viewportWidth / viewportHeight` which it
never uses; it is kept here verbatim. -/
def UpdateMatrices (fm : FloatMath) (viewportWidth viewportHeight : ℚ) (c : CCamera) : CCamera :=
  let matrixXRot := D3DXMatrixRotationX fm c.m_Rotation.x
  let matrixYRot := D3DXMatrixRotationY fm c.m_Rotation.y
  let matrixZRot := D3DXMatrixRotationZ fm c.m_Rotation.z
  let matrixTranslation :=
    D3DXMatrixTranslation c.m_Position.x c.m_Position.y c.m_Position.z
  let worldMatrix := matrixZRot * matrixXRot * matrixYRot * matrixTranslation
  let viewMatrix := D3DXMatrixInverse worldMatrix
  let aspect := viewportWidth / viewportHeight
  let projMatrix :=
    D3DXMatrixPerspectiveFovLH fm c.m_FOV c.m_Aspect c.m_NearClip c.m_FarClip
  { c with
    m_WorldMatrix := worldMatrix
    m_ViewMatrix := viewMatrix
    m_ProjMatrix := projMatrix
    m_ViewProjMatrix := viewMatrix * projMatrix }

/-- CCamera::CCamera (Camera.cpp lines 13-24): store position and
rotation, hard-code `m_Aspect = 1.333`, store fov and the clip
distances, then call `UpdateMatrices`.  The four matrix fields are
uninitialised before that call; they are seeded with the identity
here, and all four are overwritten by `UpdateMatrices`. -/
def CCameraConstruct (fm : FloatMath) (viewportWidth viewportHeight : ℚ)
    (position rotation : D3DXVECTOR3) (fov nearClip farClip : ℚ) : CCamera :=
  UpdateMatrices fm viewportWidth viewportHeight
    { m_Position := position
      m_Rotation := rotation
      m_FOV := fov
      m_Aspect := 1333 / 1000
      m_NearClip := nearClip
      m_FarClip := farClip
      m_WorldMatrix := 1
      m_ViewMatrix := 1
      m_ProjMatrix := 1
      m_ViewProjMatrix := 1 }

/-- CCamera::GetPosition (Camera.cpp lines 59-72): monoscopic returns
the stored position; stereo offsets it along row 0 of the world matrix
(`_11`, `_12`, `_13`) by `interocular * (stereo == Left ? -0.5 : 0.5)`. -/
def GetPosition (stereo : EStereoscopic) (interocular : ℚ) (c : CCamera) : D3DXVECTOR3 :=
  if stereo = Monoscopic then c.m_Position
  else
    let offset := interocular * (if stereo = StereoscopicLeft then -(1/2) else 1/2)
    { x := c.m_Position.x + c.m_WorldMatrix 0 0 * offset
      y := c.m_Position.y + c.m_WorldMatrix 0 1 * offset
      z := c.m_Position.z + c.m_WorldMatrix 0 2 * offset }

/-- CCamera::GetWorldMatrix (Camera.cpp lines 76-89): monoscopic
returns the cached world matrix; stereo offsets its translation row
(`_41`, `_42`, `_43`) along row 0. -/
def GetWorldMatrix (stereo : EStereoscopic) (interocular : ℚ) (c : CCamera) : D3DXMATRIX :=
  if stereo = Monoscopic then c.m_WorldMatrix
  else
    let offset := interocular * (if stereo = StereoscopicLeft then -(1/2) else 1/2)
    Matrix.of fun i j =>
      if i = 3 then c.m_WorldMatrix 3 j + c.m_WorldMatrix 0 j * offset
      else c.m_WorldMatrix i j

/-- CCamera::GetViewMatrix (Camera.cpp lines 92-107): monoscopic
returns the cached view matrix; stereo re-inverts the offset world
matrix. -/
def GetViewMatrix (stereo : EStereoscopic) (interocular : ℚ) (c : CCamera) : D3DXMATRIX :=
  if stereo = Monoscopic then c.m_ViewMatrix
  else D3DXMatrixInverse (GetWorldMatrix stereo interocular c)

/-- CCamera::GetProjectionMatrix (Camera.cpp lines 110-123): monoscopic
returns the cached projection matrix; stereo copies it and overwrites
entry `_31` with `(offset / screenDistance) / (m_Aspect * tanf(m_FOV/2))`. -/
def GetProjectionMatrix (fm : FloatMath) (stereo : EStereoscopic)
    (interocular screenDistance : ℚ) (c : CCamera) : D3DXMATRIX :=
  if stereo = Monoscopic then c.m_ProjMatrix
  else
    let offset := interocular * (if stereo = StereoscopicLeft then -(1/2) else 1/2)
    Matrix.of fun i j =>
      if i = 2 ∧ j = 0 then
        (offset / screenDistance) / (c.m_Aspect * fm.tanf (c.m_FOV / 2))
      else c.m_ProjMatrix i j

/-- CCamera::GetViewProjectionMatrix (Camera.cpp lines 127-133):
monoscopic returns the cached combined matrix; stereo recomputes
`GetViewMatrix * GetProjectionMatrix`. -/
def GetViewProjectionMatrix (fm : FloatMath) (stereo : EStereoscopic)
    (interocular screenDistance : ℚ) (c : CCamera) : D3DXMATRIX :=
  if stereo = Monoscopic then c.m_ViewProjMatrix
  else GetViewMatrix stereo interocular c *
    GetProjectionMatrix fm stereo interocular screenDistance c

/-- Concrete trig oracle used only by witnesses: sin = 0, cos = 1,
tan = 1, sqrt = 0 (the values of a degenerate but legal oracle). -/
def witnessFloatMath : FloatMath :=
  { sinf := fun _ => 0, cosf := fun _ => 1, tanf := fun _ => 1, sqrtf := fun _ => 0 }

/-- Concrete camera state used only by witnesses: fov 1 radian and the
constructor's settings, with identity placeholder matrices. -/
def witnessCamera : CCamera :=
  { m_Position := ⟨0, 0, 0⟩
    m_Rotation := ⟨0, 0, 0⟩
    m_FOV := 1
    m_Aspect := 1333 / 1000
    m_NearClip := 1
    m_FarClip := 50000
    m_WorldMatrix := 1
    m_ViewMatrix := 1
    m_ProjMatrix := 1
    m_ViewProjMatrix := 1 }

/-- CVector3: 3-component float vector used by the light records. -/
structure CVector3 where
  x : ℚ
  y : ℚ
  z : ℚ
deriving DecidableEq

/-- CVector4: 4-component float vector used for light colours. -/
structure CVector4 where
  x : ℚ
  y : ℚ
  z : ℚ
  w : ℚ
deriving DecidableEq

/-- SPointLight (DeferredSolution.cpp lines 52-57): position, influence
radius and colour of one point light. -/
structure SPointLight where
  position : CVector3
  radius : ℚ
  colour : CVector4
deriving DecidableEq

/-- LightSpawnFreq (DeferredSolution.cpp line 74): how many new lights
per second. -/
def LightSpawnFreq : ℚ := 5000

/-- MaxPointLights (DeferredSolution.cpp line 75): fixed capacity of the
light array. -/
def MaxPointLights : ℕ := 25600

/-- The one light the `PointLights` array is initialised with
(DeferredSolution.cpp lines 78-80). -/
def SeedPointLight : SPointLight :=
  { position := { x := -18000, y := 4000, z := 6000 }
    radius := 25000
    colour := { x := 2/5, y := 2/5, z := 7/10, w := 0 } }

/-- Initial contents of the global `PointLights` array: the seed light
in slot 0, zero-initialised records everywhere else. -/
def PointLightsInit : ℕ → SPointLight :=
  fun i => if i = 0 then SeedPointLight
    else { position := { x := 0, y := 0, z := 0 }
           radius := 0
           colour := { x := 0, y := 0, z := 0, w := 0 } }

/-- The mutable light-population state of DeferredSolution.cpp: the
`PointLights` array (as a total function on slot indices), the live
count `NumPointLights`, and the static spawn accumulator `emit`. -/
structure SceneLights where
  pointLights : ℕ → SPointLight
  numPointLights : ℕ
  emit : ℚ

/-- Initial light-population state (DeferredSolution.cpp lines 73-80 and
line 469): one live light and the accumulator seeded at
`1.0f / LightSpawnFreq`. -/
def SceneLightsInit : SceneLights :=
  { pointLights := PointLightsInit
    numPointLights := 1
    emit := 1 / LightSpawnFreq }

/-- The `while (emit < 0)` spawn loop of UpdateScene
(DeferredSolution.cpp lines 471-481): while the accumulator is
negative, append one new light if below capacity, and add
`1 / LightSpawnFreq` back each iteration.  `newLight i` models the
repository helper `Random` (declared outside src/): it supplies the
randomized light record written into slot `i`. -/
def spawnLoop (newLight : ℕ → SPointLight) (lights : ℕ → SPointLight) (num : ℕ) (emit : ℚ) :
    (ℕ → SPointLight) × ℕ × ℚ :=
  if emit < 0 then
    if num < MaxPointLights then
      spawnLoop newLight (Function.update lights num (newLight num)) (num + 1)
        (emit + 1 / LightSpawnFreq)
    else
      spawnLoop newLight lights num (emit + 1 / LightSpawnFreq)
  else (lights, num, emit)
termination_by (⌈-emit * LightSpawnFreq⌉).toNat
decreasing_by
  all_goals
  · have h1 : -(emit + 1 / LightSpawnFreq) * LightSpawnFreq = -emit * LightSpawnFreq - 1 := by
      rw [LightSpawnFreq]; ring
    have h2 : ⌈-(emit + 1 / LightSpawnFreq) * LightSpawnFreq⌉ = ⌈-emit * LightSpawnFreq⌉ - 1 := by
      rw [h1, show ((1:ℚ) = ((1:ℤ):ℚ)) from by norm_num, Int.ceil_sub_int]
    have h3 : 0 < ⌈-emit * LightSpawnFreq⌉ := by
      rw [Int.ceil_pos]
      have h4 : (0:ℚ) < LightSpawnFreq := by rw [LightSpawnFreq]; norm_num
      nlinarith
    omega

/-- Spawn-throttling step of UpdateScene (DeferredSolution.cpp lines
468-481): subtract `frameTime` from the accumulator, then run the spawn
loop. -/
def spawnStep (newLight : ℕ → SPointLight) (frameTime : ℚ) (s : SceneLights) : SceneLights :=
  let r := spawnLoop newLight s.pointLights s.numPointLights (s.emit - frameTime)
  { pointLights := r.1, numPointLights := r.2.1, emit := r.2.2 }

/-- C standard library `fmodf`: floating remainder,
`x - trunc(x / y) * y` (truncation toward zero). -/
def fmodf (x y : ℚ) : ℚ :=
  x - y * (if 0 ≤ x / y then ((⌊x / y⌋ : ℤ) : ℚ) else ((⌈x / y⌉ : ℤ) : ℚ))

/-- Modelled from the spec: `CVector3::Length` (MathDX helper, not under
src/) is the Euclidean magnitude `|position|`; the square root is taken
through the float oracle. -/
def CVector3Length (fm : FloatMath) (v : CVector3) : ℚ :=
  fm.sqrtf (v.x * v.x + v.y * v.y + v.z * v.z)

/-- Modelled from the spec: `MatrixRotationY(a).TransformVector(v)`
(MathDX helpers, not under src/) rotates `v` about the vertical (y)
axis by `a` radians. -/
def RotateAboutY (fm : FloatMath) (a : ℚ) (v : CVector3) : CVector3 :=
  { x := fm.cosf a * v.x + fm.sinf a * v.z
    y := v.y
    z := -(fm.sinf a) * v.x + fm.cosf a * v.z }

/-- Orbital update of UpdateScene (DeferredSolution.cpp lines 483-489):
every light except index 0 is rotated about the vertical axis by
`rotateSpeed * frameTime` radians with
`rotateSpeed = (fmodf(dist, 1) + -0.5) * 200 / (dist + 0.1)` and
`dist` the light's distance from the origin.  The C++ loop runs
`i = 1 .. num-1` and each iteration touches only slot `i`, so it is the
pointwise map below. -/
def orbitStep (fm : FloatMath) (frameTime : ℚ) (lights : ℕ → SPointLight) (num : ℕ) :
    ℕ → SPointLight :=
  fun i =>
    if 1 ≤ i ∧ i < num then
      let dist := CVector3Length fm (lights i).position
      let rotateSpeed := (fmodf dist 1 + -(1/2)) * 200 / (dist + 1/10)
      { lights i with
        position := RotateAboutY fm (rotateSpeed * frameTime) (lights i).position }
    else lights i

/-- The light-population portion of UpdateScene (DeferredSolution.cpp
lines 468-489): spawn throttling followed by the orbital update.  The
camera part of UpdateScene (lines 465-466) acts on the disjoint camera
state and is embedded by `UpdateMatrices`; the GPU upload (lines
491-495) does not modify this state and is embedded by
`UploadPointLights`. -/
def UpdateSceneLights (fm : FloatMath) (newLight : ℕ → SPointLight) (frameTime : ℚ)
    (s : SceneLights) : SceneLights :=
  let s2 := spawnStep newLight frameTime s
  { s2 with pointLights := orbitStep fm frameTime s2.pointLights s2.numPointLights }

/-- The state after `n` calls of the light-population update, each with
`frameTime = 0.001`, starting from the program's initial state. -/
def afterUpdates (fm : FloatMath) (newLight : ℕ → SPointLight) (n : ℕ) : SceneLights :=
  (UpdateSceneLights fm newLight (1/1000))^[n] SceneLightsInit

/-- Concrete light supply used only by witnesses and counterexamples. -/
def witnessNewLight : ℕ → SPointLight := fun _ => SeedPointLight

/-- Renderer-level error values a per-frame step could report. -/
inductive RendererError where
  | lightBufferMapFailure
deriving DecidableEq

/-- Per-frame light upload of UpdateScene (DeferredSolution.cpp lines
491-495): `Map` is called with its HRESULT discarded (`mapSucceeded` is
never consulted), `CopyMemory` copies the live prefix
(`NumPointLights * sizeof(SPointLight)` bytes) unconditionally, `Unmap`
follows, and UpdateScene (which returns `void`) reports no error to its
caller, so the result is always success. -/
def UploadPointLights (mapSucceeded : Bool) (lights : ℕ → SPointLight) (num : ℕ) :
    Except RendererError (List SPointLight) :=
  Except.ok ((List.range num).map fun i => lights i)

/-- Observable steps of one idle iteration of the wWinMain message
loop. -/
inductive FrameEvent where
  | renderScene
  | updateScene
deriving DecidableEq

/-- One idle iteration of the wWinMain main loop (DeferredSolution.cpp
lines 690-703): `RenderScene()` first, then `Timer.GetLapTime()` and
`UpdateScene(frameTime)`. -/
def MainLoopIterationEvents : List FrameEvent :=
  [FrameEvent.renderScene, FrameEvent.updateScene]

/-- Event trace of `n` idle iterations of the main loop. -/
def MainLoopTrace : ℕ → List FrameEvent
  | 0 => []
  | n + 1 => MainLoopTrace n ++ MainLoopIterationEvents

/-- Laplace expansion of a 4x4 determinant along the first row. -/
theorem det_fin_four (A : Matrix (Fin 4) (Fin 4) ℚ) :
    A.det =
      A 0 0 * (A 1 1 * A 2 2 * A 3 3 - A 1 1 * A 2 3 * A 3 2 - A 1 2 * A 2 1 * A 3 3
        + A 1 2 * A 2 3 * A 3 1 + A 1 3 * A 2 1 * A 3 2 - A 1 3 * A 2 2 * A 3 1)
      - A 0 1 * (A 1 0 * A 2 2 * A 3 3 - A 1 0 * A 2 3 * A 3 2 - A 1 2 * A 2 0 * A 3 3
        + A 1 2 * A 2 3 * A 3 0 + A 1 3 * A 2 0 * A 3 2 - A 1 3 * A 2 2 * A 3 0)
      + A 0 2 * (A 1 0 * A 2 1 * A 3 3 - A 1 0 * A 2 3 * A 3 1 - A 1 1 * A 2 0 * A 3 3
        + A 1 1 * A 2 3 * A 3 0 + A 1 3 * A 2 0 * A 3 1 - A 1 3 * A 2 1 * A 3 0)
      - A 0 3 * (A 1 0 * A 2 1 * A 3 2 - A 1 0 * A 2 2 * A 3 1 - A 1 1 * A 2 0 * A 3 2
        + A 1 1 * A 2 2 * A 3 0 + A 1 2 * A 2 0 * A 3 1 - A 1 2 * A 2 1 * A 3 0) := by
  rw [Matrix.det_succ_row_zero]
  simp [Fin.sum_univ_succ, Matrix.det_fin_three, Matrix.submatrix_apply, Fin.succAbove]
  simp only [show (Fin.succ 2 : Fin 4) = 3 from rfl, show (Fin.castSucc 2 : Fin 4) = 2 from rfl,
    show ((1 : Fin 4) < 3) = True from by decide, if_true]
  ring

/-- Determinant of the x-rotation factor. -/
theorem det_rotationX (fm : FloatMath) (a : ℚ) :
    (D3DXMatrixRotationX fm a).det = fm.cosf a ^ 2 + fm.sinf a ^ 2 := by
  rw [det_fin_four, D3DXMatrixRotationX]
  simp
  ring

/-- Determinant of the y-rotation factor. -/
theorem det_rotationY (fm : FloatMath) (a : ℚ) :
    (D3DXMatrixRotationY fm a).det = fm.cosf a ^ 2 + fm.sinf a ^ 2 := by
  rw [det_fin_four, D3DXMatrixRotationY]
  simp
  ring

/-- Determinant of the z-rotation factor. -/
theorem det_rotationZ (fm : FloatMath) (a : ℚ) :
    (D3DXMatrixRotationZ fm a).det = fm.cosf a ^ 2 + fm.sinf a ^ 2 := by
  rw [det_fin_four, D3DXMatrixRotationZ]
  simp
  ring

/-- Determinant of the translation factor. -/
theorem det_translation (x y z : ℚ) : (D3DXMatrixTranslation x y z).det = 1 := by
  rw [det_fin_four, D3DXMatrixTranslation]
  simp

/-- `D3DXMatrixInverse` produces a genuine two-sided inverse whenever the
determinant is nonzero. -/
theorem D3DXMatrixInverse_mul (M : D3DXMATRIX) (h : M.det ≠ 0) :
    D3DXMatrixInverse M * M = 1 ∧ M * D3DXMatrixInverse M = 1 := by
  constructor
  · rw [D3DXMatrixInverse, Matrix.smul_mul, Matrix.adjugate_mul, smul_smul,
      inv_mul_cancel₀ h, one_smul]
  · rw [D3DXMatrixInverse, Matrix.mul_smul, Matrix.mul_adjugate, smul_smul,
      inv_mul_cancel₀ h, one_smul]

/-- C1: after `UpdateMatrices`, the cached world matrix equals
`Rz(rotation.z) * Rx(rotation.x) * Ry(rotation.y) * T(position)`, the
cached view matrix is the two-sided matrix inverse of that world
matrix, the projection matrix is the standard perspective projection
from fov, aspect ratio and near/far clip, and the cached combined
matrix equals `view * projection`.  The hypotheses say that the float
oracle returns a genuine sine/cosine pair at each rotation angle. -/
theorem updateMatrices_spec (fm : FloatMath) (vw vh : ℚ) (c : CCamera)
    (hx : fm.cosf c.m_Rotation.x ^ 2 + fm.sinf c.m_Rotation.x ^ 2 = 1)
    (hy : fm.cosf c.m_Rotation.y ^ 2 + fm.sinf c.m_Rotation.y ^ 2 = 1)
    (hz : fm.cosf c.m_Rotation.z ^ 2 + fm.sinf c.m_Rotation.z ^ 2 = 1) :
    (UpdateMatrices fm vw vh c).m_WorldMatrix
      = D3DXMatrixRotationZ fm c.m_Rotation.z * D3DXMatrixRotationX fm c.m_Rotation.x *
        D3DXMatrixRotationY fm c.m_Rotation.y *
        D3DXMatrixTranslation c.m_Position.x c.m_Position.y c.m_Position.z ∧
    (UpdateMatrices fm vw vh c).m_ViewMatrix * (UpdateMatrices fm vw vh c).m_WorldMatrix
      = 1 ∧
    (UpdateMatrices fm vw vh c).m_WorldMatrix * (UpdateMatrices fm vw vh c).m_ViewMatrix
      = 1 ∧
    (UpdateMatrices fm vw vh c).m_ProjMatrix
      = D3DXMatrixPerspectiveFovLH fm c.m_FOV c.m_Aspect c.m_NearClip c.m_FarClip ∧
    (UpdateMatrices fm vw vh c).m_ViewProjMatrix
      = (UpdateMatrices fm vw vh c).m_ViewMatrix * (UpdateMatrices fm vw vh c).m_ProjMatrix := by
  have hdet : (D3DXMatrixRotationZ fm c.m_Rotation.z * D3DXMatrixRotationX fm c.m_Rotation.x *
      D3DXMatrixRotationY fm c.m_Rotation.y *
      D3DXMatrixTranslation c.m_Position.x c.m_Position.y c.m_Position.z).det ≠ 0 := by
    rw [Matrix.det_mul, Matrix.det_mul, Matrix.det_mul, det_rotationZ, det_rotationX,
      det_rotationY, det_translation, hx, hy, hz]
    norm_num
  have h := D3DXMatrixInverse_mul _ hdet
  exact ⟨rfl, h.1, h.2, rfl, rfl⟩

/-- C1 witness: the matrix specification applied to a concrete camera
and a concrete oracle with `cos = 1`, `sin = 0` at every angle. -/
theorem updateMatrices_spec_witness :
    (witnessFloatMath.cosf (witnessCamera).m_Rotation.x ^ 2 +
        witnessFloatMath.sinf (witnessCamera).m_Rotation.x ^ 2 = 1 ∧
      witnessFloatMath.cosf (witnessCamera).m_Rotation.y ^ 2 +
        witnessFloatMath.sinf (witnessCamera).m_Rotation.y ^ 2 = 1 ∧
      witnessFloatMath.cosf (witnessCamera).m_Rotation.z ^ 2 +
        witnessFloatMath.sinf (witnessCamera).m_Rotation.z ^ 2 = 1) ∧
    ((UpdateMatrices witnessFloatMath 1280 960 witnessCamera).m_WorldMatrix
      = D3DXMatrixRotationZ witnessFloatMath (witnessCamera).m_Rotation.z *
        D3DXMatrixRotationX witnessFloatMath (witnessCamera).m_Rotation.x *
        D3DXMatrixRotationY witnessFloatMath (witnessCamera).m_Rotation.y *
        D3DXMatrixTranslation (witnessCamera).m_Position.x (witnessCamera).m_Position.y
          (witnessCamera).m_Position.z ∧
    (UpdateMatrices witnessFloatMath 1280 960 witnessCamera).m_ViewMatrix *
        (UpdateMatrices witnessFloatMath 1280 960 witnessCamera).m_WorldMatrix = 1 ∧
    (UpdateMatrices witnessFloatMath 1280 960 witnessCamera).m_WorldMatrix *
        (UpdateMatrices witnessFloatMath 1280 960 witnessCamera).m_ViewMatrix = 1 ∧
    (UpdateMatrices witnessFloatMath 1280 960 witnessCamera).m_ProjMatrix
      = D3DXMatrixPerspectiveFovLH witnessFloatMath (witnessCamera).m_FOV
          (witnessCamera).m_Aspect (witnessCamera).m_NearClip (witnessCamera).m_FarClip ∧
    (UpdateMatrices witnessFloatMath 1280 960 witnessCamera).m_ViewProjMatrix
      = (UpdateMatrices witnessFloatMath 1280 960 witnessCamera).m_ViewMatrix *
        (UpdateMatrices witnessFloatMath 1280 960 witnessCamera).m_ProjMatrix) :=
  ⟨⟨by norm_num [witnessFloatMath, witnessCamera], by norm_num [witnessFloatMath, witnessCamera],
      by norm_num [witnessFloatMath, witnessCamera]⟩,
    updateMatrices_spec witnessFloatMath 1280 960 witnessCamera
      (by norm_num [witnessFloatMath, witnessCamera])
      (by norm_num [witnessFloatMath, witnessCamera])
      (by norm_num [witnessFloatMath, witnessCamera])⟩

/-- C7: for every camera state and interocular distance `d`, the left and
right stereo positions are symmetric about the unoffset position along
row 0 of the world matrix, and the monoscopic position is the stored
position for any interocular argument. -/
theorem getPosition_stereo_symmetric (c : CCamera) (d x : ℚ) :
    ((GetPosition StereoscopicRight d c).x - c.m_Position.x
        = -((GetPosition StereoscopicLeft d c).x - c.m_Position.x) ∧
      (GetPosition StereoscopicRight d c).y - c.m_Position.y
        = -((GetPosition StereoscopicLeft d c).y - c.m_Position.y) ∧
      (GetPosition StereoscopicRight d c).z - c.m_Position.z
        = -((GetPosition StereoscopicLeft d c).z - c.m_Position.z)) ∧
    GetPosition Monoscopic x c = c.m_Position := by
  refine ⟨⟨?_, ?_, ?_⟩, by simp [GetPosition]⟩ <;> simp [GetPosition] <;> ring

/-- C9: a camera built with explicit position/rotation/fov/near/far and
then updated via `UpdateMatrices` returns exactly the cached combined
view-projection matrix from `GetViewProjectionMatrix Monoscopic`, and
repeated calls (with any interocular/screen-distance arguments) return
the identical matrix. -/
theorem getViewProjectionMatrix_roundtrip (fm : FloatMath) (vw vh : ℚ)
    (position rotation : D3DXVECTOR3) (fov nearClip farClip io sd io2 sd2 : ℚ) :
    GetViewProjectionMatrix fm Monoscopic io sd
        (UpdateMatrices fm vw vh
          (CCameraConstruct fm vw vh position rotation fov nearClip farClip))
      = (UpdateMatrices fm vw vh
          (CCameraConstruct fm vw vh position rotation fov nearClip farClip)).m_ViewProjMatrix ∧
    GetViewProjectionMatrix fm Monoscopic io2 sd2
        (UpdateMatrices fm vw vh
          (CCameraConstruct fm vw vh position rotation fov nearClip farClip))
      = GetViewProjectionMatrix fm Monoscopic io sd
        (UpdateMatrices fm vw vh
          (CCameraConstruct fm vw vh position rotation fov nearClip farClip)) := by
  exact ⟨rfl, rfl⟩

/-- C6: under the precondition `0 < fov < π`, the stereo projection
matrix is the cached projection with the single off-diagonal entry
`_31` overwritten by `(offset / screenDistance) / (aspect * tan(fov/2))`
with `offset = -interocular/2` for the left eye and `+interocular/2`
for the right eye; all other entries are unchanged, and the monoscopic
projection matrix is returned unmodified. -/
theorem getProjectionMatrix_stereo_shear (fm : FloatMath) (c : CCamera) (io sd : ℚ)
    (hfov0 : 0 < c.m_FOV) (hfovpi : (c.m_FOV : ℝ) < Real.pi) :
    GetProjectionMatrix fm Monoscopic io sd c = c.m_ProjMatrix ∧
    ((2 : Fin 4) ≠ (0 : Fin 4)) ∧
    GetProjectionMatrix fm StereoscopicLeft io sd c 2 0
      = (-(io / 2) / sd) / (c.m_Aspect * fm.tanf (c.m_FOV / 2)) ∧
    GetProjectionMatrix fm StereoscopicRight io sd c 2 0
      = ((io / 2) / sd) / (c.m_Aspect * fm.tanf (c.m_FOV / 2)) ∧
    (∀ i j : Fin 4, ¬(i = 2 ∧ j = 0) →
      GetProjectionMatrix fm StereoscopicLeft io sd c i j = c.m_ProjMatrix i j ∧
      GetProjectionMatrix fm StereoscopicRight io sd c i j = c.m_ProjMatrix i j) := by
  refine ⟨by simp [GetProjectionMatrix], by decide, ?_, ?_, ?_⟩
  · show (if (2 : Fin 4) = 2 ∧ (0 : Fin 4) = 0 then
        (io * -(1/2) / sd) / (c.m_Aspect * fm.tanf (c.m_FOV / 2))
      else c.m_ProjMatrix 2 0) = _
    rw [if_pos ⟨rfl, rfl⟩]
    ring_nf
  · show (if (2 : Fin 4) = 2 ∧ (0 : Fin 4) = 0 then
        (io * (1/2) / sd) / (c.m_Aspect * fm.tanf (c.m_FOV / 2))
      else c.m_ProjMatrix 2 0) = _
    rw [if_pos ⟨rfl, rfl⟩]
    ring_nf
  · intro i j h
    constructor <;>
      · show (if i = 2 ∧ j = 0 then _ else c.m_ProjMatrix i j) = _
        rw [if_neg h]

/-- C6 witness: the stereo-shear theorem applied to a concrete camera
with `fov = 1`, which satisfies `0 < fov` and `fov < π`. -/
theorem getProjectionMatrix_stereo_shear_witness :
    (0 < (witnessCamera).m_FOV ∧ ((witnessCamera).m_FOV : ℝ) < Real.pi) ∧
    (GetProjectionMatrix witnessFloatMath Monoscopic (65/100) 20 witnessCamera
        = (witnessCamera).m_ProjMatrix ∧
      ((2 : Fin 4) ≠ (0 : Fin 4)) ∧
      GetProjectionMatrix witnessFloatMath StereoscopicLeft (65/100) 20 witnessCamera 2 0
        = (-((65/100) / 2) / 20) /
            ((witnessCamera).m_Aspect * witnessFloatMath.tanf ((witnessCamera).m_FOV / 2)) ∧
      GetProjectionMatrix witnessFloatMath StereoscopicRight (65/100) 20 witnessCamera 2 0
        = (((65/100) / 2) / 20) /
            ((witnessCamera).m_Aspect * witnessFloatMath.tanf ((witnessCamera).m_FOV / 2)) ∧
      (∀ i j : Fin 4, ¬(i = 2 ∧ j = 0) →
        GetProjectionMatrix witnessFloatMath StereoscopicLeft (65/100) 20 witnessCamera i j
          = (witnessCamera).m_ProjMatrix i j ∧
        GetProjectionMatrix witnessFloatMath StereoscopicRight (65/100) 20 witnessCamera i j
          = (witnessCamera).m_ProjMatrix i j)) :=
  ⟨⟨by norm_num [witnessCamera], by
      have h3 : (3 : ℝ) < Real.pi := Real.pi_gt_three
      have h1 : ((witnessCamera).m_FOV : ℝ) = 1 := by norm_num [witnessCamera]
      rw [h1]; linarith⟩,
    getProjectionMatrix_stereo_shear witnessFloatMath witnessCamera (65/100) 20
      (by norm_num [witnessCamera]) (by
        have h3 : (3 : ℝ) < Real.pi := Real.pi_gt_three
        have h1 : ((witnessCamera).m_FOV : ℝ) = 1 := by norm_num [witnessCamera]
        rw [h1]; linarith)⟩

/-- C10: the viewport dimensions are never used by `UpdateMatrices`
(its locally computed aspect ratio is dead); the projection matrix and
the stereo shear denominator are built from the hard-coded
`m_Aspect = 1.333` assigned in the constructor. -/
theorem updateMatrices_fixed_aspect (fm : FloatMath) (vw vh vw2 vh2 : ℚ)
    (position rotation : D3DXVECTOR3) (fov nearClip farClip io sd : ℚ) (c : CCamera) :
    (CCameraConstruct fm vw vh position rotation fov nearClip farClip).m_Aspect
      = 1333 / 1000 ∧
    UpdateMatrices fm vw vh c = UpdateMatrices fm vw2 vh2 c ∧
    (UpdateMatrices fm vw vh c).m_ProjMatrix
      = D3DXMatrixPerspectiveFovLH fm c.m_FOV c.m_Aspect c.m_NearClip c.m_FarClip ∧
    (CCameraConstruct fm vw vh position rotation fov nearClip farClip).m_ProjMatrix
      = D3DXMatrixPerspectiveFovLH fm fov (1333 / 1000) nearClip farClip ∧
    GetProjectionMatrix fm StereoscopicLeft io sd
        (CCameraConstruct fm vw vh position rotation fov nearClip farClip) 2 0
      = (io * -(1/2) / sd) / ((1333 / 1000) * fm.tanf (fov / 2)) := by
  exact ⟨rfl, rfl, rfl, rfl, rfl⟩

/-- Number of iterations the spawn loop performs from accumulator value
`emit`: the loop adds `1 / LightSpawnFreq` per iteration until the
accumulator is non-negative. -/
def spawnIters (emit : ℚ) : ℕ := (⌈-emit * LightSpawnFreq⌉).toNat

theorem spawnIters_of_nonneg (emit : ℚ) (h : ¬ emit < 0) : spawnIters emit = 0 := by
  rw [spawnIters]
  have h2 : ⌈-emit * LightSpawnFreq⌉ ≤ (0:ℤ) := by
    apply Int.ceil_le.mpr
    push_cast
    have h4 : (0:ℚ) < LightSpawnFreq := by rw [LightSpawnFreq]; norm_num
    nlinarith [not_lt.mp h]
  omega

theorem spawnIters_of_neg (emit : ℚ) (h : emit < 0) :
    spawnIters emit = spawnIters (emit + 1 / LightSpawnFreq) + 1 := by
  rw [spawnIters, spawnIters]
  have h1 : -(emit + 1 / LightSpawnFreq) * LightSpawnFreq = -emit * LightSpawnFreq - 1 := by
    rw [LightSpawnFreq]; ring
  have h2 : ⌈-(emit + 1 / LightSpawnFreq) * LightSpawnFreq⌉ = ⌈-emit * LightSpawnFreq⌉ - 1 := by
    rw [h1, show ((1:ℚ) = ((1:ℤ):ℚ)) from by norm_num, Int.ceil_sub_int]
  have h3 : 0 < ⌈-emit * LightSpawnFreq⌉ := by
    rw [Int.ceil_pos]
    have h4 : (0:ℚ) < LightSpawnFreq := by rw [LightSpawnFreq]; norm_num
    nlinarith
  omega

theorem spawnLoop_step (nl lights : ℕ → SPointLight) (num : ℕ) (emit : ℚ)
    (h : emit < 0) (h2 : num < MaxPointLights) :
    spawnLoop nl lights num emit
      = spawnLoop nl (Function.update lights num (nl num)) (num + 1)
          (emit + 1 / LightSpawnFreq) := by
  rw [spawnLoop]
  rw [if_pos h, if_pos h2]

theorem spawnLoop_skip (nl lights : ℕ → SPointLight) (num : ℕ) (emit : ℚ)
    (h : emit < 0) (h2 : ¬ num < MaxPointLights) :
    spawnLoop nl lights num emit
      = spawnLoop nl lights num (emit + 1 / LightSpawnFreq) := by
  rw [spawnLoop]
  rw [if_pos h, if_neg h2]

theorem spawnLoop_done (nl lights : ℕ → SPointLight) (num : ℕ) (emit : ℚ)
    (h : ¬ emit < 0) :
    spawnLoop nl lights num emit = (lights, num, emit) := by
  rw [spawnLoop]
  rw [if_neg h]

/-- Count and accumulator after the spawn loop: the count grows by the
number of loop iterations, clamped at capacity, and the accumulator
gains `1 / LightSpawnFreq` per iteration. -/
theorem spawnLoop_num_emit (nl lights : ℕ → SPointLight) (num : ℕ) (emit : ℚ)
    (h : num ≤ MaxPointLights) :
    (spawnLoop nl lights num emit).2.1 = min (num + spawnIters emit) MaxPointLights ∧
    (spawnLoop nl lights num emit).2.2 = emit + spawnIters emit / LightSpawnFreq := by
  induction lights, num, emit using spawnLoop.induct nl with
  | case1 lights num emit hneg hlt ih =>
    rw [spawnLoop_step nl lights num emit hneg hlt]
    obtain ⟨ih1, ih2⟩ := ih (by omega)
    rw [spawnIters_of_neg emit hneg]
    constructor
    · rw [ih1]; omega
    · rw [ih2]; push_cast; ring
  | case2 lights num emit hneg hlt ih =>
    rw [spawnLoop_skip nl lights num emit hneg hlt]
    obtain ⟨ih1, ih2⟩ := ih h
    rw [spawnIters_of_neg emit hneg]
    constructor
    · rw [ih1]; omega
    · rw [ih2]; push_cast; ring
  | case3 lights num emit hpos =>
    rw [spawnLoop_done nl lights num emit hpos, spawnIters_of_nonneg emit hpos]
    constructor
    · simp; omega
    · simp

/-- The spawn loop never decreases the live count. -/
theorem spawnLoop_num_le (nl lights : ℕ → SPointLight) (num : ℕ) (emit : ℚ) :
    num ≤ (spawnLoop nl lights num emit).2.1 := by
  induction lights, num, emit using spawnLoop.induct nl with
  | case1 lights num emit hneg hlt ih =>
    rw [spawnLoop_step nl lights num emit hneg hlt]
    omega
  | case2 lights num emit hneg hlt ih =>
    rw [spawnLoop_skip nl lights num emit hneg hlt]
    exact ih
  | case3 lights num emit hpos =>
    rw [spawnLoop_done nl lights num emit hpos]

/-- The spawn loop never writes a slot below the incoming live count. -/
theorem spawnLoop_lights_lo (nl lights : ℕ → SPointLight) (num : ℕ) (emit : ℚ)
    (i : ℕ) (h : i < num) :
    (spawnLoop nl lights num emit).1 i = lights i := by
  induction lights, num, emit using spawnLoop.induct nl with
  | case1 lights num emit hneg hlt ih =>
    rw [spawnLoop_step nl lights num emit hneg hlt]
    rw [ih (by omega)]
    rw [Function.update_apply, if_neg (by omega)]
  | case2 lights num emit hneg hlt ih =>
    rw [spawnLoop_skip nl lights num emit hneg hlt]
    exact ih h
  | case3 lights num emit hpos =>
    rw [spawnLoop_done nl lights num emit hpos]

/-- The spawn loop never writes a slot at or beyond the resulting live
count. -/
theorem spawnLoop_lights_hi (nl lights : ℕ → SPointLight) (num : ℕ) (emit : ℚ)
    (i : ℕ) (h : (spawnLoop nl lights num emit).2.1 ≤ i) :
    (spawnLoop nl lights num emit).1 i = lights i := by
  induction lights, num, emit using spawnLoop.induct nl with
  | case1 lights num emit hneg hlt ih =>
    rw [spawnLoop_step nl lights num emit hneg hlt] at h ⊢
    have h5 := spawnLoop_num_le nl (Function.update lights num (nl num)) (num + 1)
      (emit + 1 / LightSpawnFreq)
    have hnum : num + 1 ≤ i := le_trans h5 h
    rw [ih h]
    rw [Function.update_apply, if_neg (by omega)]
  | case2 lights num emit hneg hlt ih =>
    rw [spawnLoop_skip nl lights num emit hneg hlt] at h ⊢
    exact ih h
  | case3 lights num emit hpos =>
    rw [spawnLoop_done nl lights num emit hpos]

/-- Count/accumulator effect of one full light-population update. -/
theorem updateSceneLights_num_emit (fm : FloatMath) (nl : ℕ → SPointLight) (dt : ℚ)
    (s : SceneLights) (h : s.numPointLights ≤ MaxPointLights) :
    (UpdateSceneLights fm nl dt s).numPointLights
      = min (s.numPointLights + spawnIters (s.emit - dt)) MaxPointLights ∧
    (UpdateSceneLights fm nl dt s).emit
      = (s.emit - dt) + spawnIters (s.emit - dt) / LightSpawnFreq :=
  spawnLoop_num_emit nl s.pointLights s.numPointLights (s.emit - dt) h

/-- One full update never decreases the live count. -/
theorem updateSceneLights_num_le (fm : FloatMath) (nl : ℕ → SPointLight) (dt : ℚ)
    (s : SceneLights) :
    s.numPointLights ≤ (UpdateSceneLights fm nl dt s).numPointLights :=
  spawnLoop_num_le nl s.pointLights s.numPointLights (s.emit - dt)

/-- One full update keeps the live count within capacity. -/
theorem updateSceneLights_num_bounded (fm : FloatMath) (nl : ℕ → SPointLight) (dt : ℚ)
    (s : SceneLights) (h : s.numPointLights ≤ MaxPointLights) :
    (UpdateSceneLights fm nl dt s).numPointLights ≤ MaxPointLights := by
  rw [(updateSceneLights_num_emit fm nl dt s h).1]
  omega

/-- With `frameTime = 0.001` forever, the trajectory from the initial
state reaches count `5 * (k + 1)` and accumulator `0` after `k + 1`
updates, for every `k ≤ 5000` (the capacity is never hit in that
range). -/
theorem afterUpdates_count (fm : FloatMath) (nl : ℕ → SPointLight) (k : ℕ) (hk : k ≤ 5000) :
    (afterUpdates fm nl (k + 1)).numPointLights = 5 * (k + 1) ∧
    (afterUpdates fm nl (k + 1)).emit = 0 := by
  induction k with
  | zero =>
    have h0 : afterUpdates fm nl 1 = UpdateSceneLights fm nl (1/1000) SceneLightsInit := by
      rw [afterUpdates, Function.iterate_one]
    have hinit : SceneLightsInit.numPointLights ≤ MaxPointLights := by
      rw [SceneLightsInit, MaxPointLights]; norm_num
    have h1 := updateSceneLights_num_emit fm nl (1/1000) SceneLightsInit hinit
    have hemit : SceneLightsInit.emit = 1 / LightSpawnFreq := rfl
    have hnum : SceneLightsInit.numPointLights = 1 := rfl
    have hit : spawnIters (SceneLightsInit.emit - 1/1000) = 4 := by
      rw [hemit, spawnIters, LightSpawnFreq]
      norm_num
      rfl
    constructor
    · rw [h0, h1.1, hit, hnum, MaxPointLights]
      omega
    · rw [h0, h1.2, hit, hemit, LightSpawnFreq]
      norm_num
  | succ k ih =>
    obtain ⟨ih1, ih2⟩ := ih (by omega)
    have hle : (afterUpdates fm nl (k + 1)).numPointLights ≤ MaxPointLights := by
      rw [ih1, MaxPointLights]; omega
    have h0 : afterUpdates fm nl (k + 1 + 1)
        = UpdateSceneLights fm nl (1/1000) (afterUpdates fm nl (k + 1)) := by
      rw [afterUpdates, afterUpdates, Function.iterate_succ_apply']
    have h1 := updateSceneLights_num_emit fm nl (1/1000) (afterUpdates fm nl (k + 1)) hle
    have hit : spawnIters ((afterUpdates fm nl (k + 1)).emit - 1/1000) = 5 := by
      rw [ih2, spawnIters, LightSpawnFreq]
      norm_num
      rfl
    constructor
    · rw [h0, h1.1, hit, ih1, MaxPointLights]
      omega
    · rw [h0, h1.2, hit, ih2, LightSpawnFreq]
      norm_num

/-- C2 counterexample: with the program's spawn frequency (5000 lights
per second) and `deltaTime = 0.001` on every update, the live count
after 5001 updates is not 2. -/
theorem updateScene_spawn_5001_ne_two :
    (afterUpdates witnessFloatMath witnessNewLight 5001).numPointLights ≠ 2 := by
  have h := (afterUpdates_count witnessFloatMath witnessNewLight 5000 (by norm_num)).1
  norm_num at h
  rw [h]
  norm_num

/-- C2 (amended): the spawn accumulator is seeded at
`1 / spawnFrequency`, each update subtracts `deltaTime` and then, while
the accumulator is negative, appends one randomized light whenever the
live count is below capacity and adds `1 / spawnFrequency` back; with
spawn frequency 5000 per second and `deltaTime = 0.001` on every
update, the accumulator arithmetic yields exactly 5 spawns per update
(4 on the first), so after 5001 update calls the live count equals
exactly 25005 (not 2). -/
theorem updateScene_spawn_after_5001 :
    SceneLightsInit.emit = 1 / LightSpawnFreq ∧
    (∀ (fm : FloatMath) (nl : ℕ → SPointLight),
      (afterUpdates fm nl 5001).numPointLights = 25005) := by
  refine ⟨rfl, fun fm nl => ?_⟩
  have h := (afterUpdates_count fm nl 5000 (by norm_num)).1
  norm_num at h
  exact h

/-- C3: for any sequence of non-negative frame times, the live count is
non-decreasing from frame to frame along the whole trajectory and never
exceeds the capacity of 25600; when the capacity is reached the update
leaves the count at the capacity (spawning stops, no error value
exists); and the spawn step never writes an array slot at or beyond the
resulting live count. -/
theorem lightCount_monotone_bounded (fm : FloatMath) (nl : ℕ → SPointLight)
    (dts : List ℚ) (hdts : ∀ d ∈ dts, 0 ≤ d) (s : SceneLights)
    (hs : s.numPointLights ≤ MaxPointLights) :
    List.Chain' (· ≤ ·)
      ((dts.scanl (fun st d => UpdateSceneLights fm nl d st) s).map
        SceneLights.numPointLights) ∧
    (∀ n ∈ (dts.scanl (fun st d => UpdateSceneLights fm nl d st) s).map
        SceneLights.numPointLights, n ≤ MaxPointLights) ∧
    (∀ dt : ℚ, s.numPointLights = MaxPointLights →
      (UpdateSceneLights fm nl dt s).numPointLights = MaxPointLights) ∧
    (∀ dt : ℚ, ∀ i, (spawnStep nl dt s).numPointLights ≤ i →
      (spawnStep nl dt s).pointLights i = s.pointLights i) := by
  refine ⟨?_, ?_, ?_, ?_⟩
  · clear hdts hs
    induction dts generalizing s with
    | nil => simp
    | cons d ds ih =>
      simp only [List.scanl_cons, List.singleton_append, List.map_cons]
      rw [List.chain'_cons']
      refine ⟨?_, ih (UpdateSceneLights fm nl d s)⟩
      intro h hh
      have hhead : ((List.scanl (fun st dd => UpdateSceneLights fm nl dd st)
          (UpdateSceneLights fm nl d s) ds).map SceneLights.numPointLights).head?
            = some (UpdateSceneLights fm nl d s).numPointLights := by
        cases ds <;> simp [List.scanl]
      rw [hhead] at hh
      cases hh
      exact updateSceneLights_num_le fm nl d s
  · clear hdts
    induction dts generalizing s with
    | nil =>
      intro n hn
      simp at hn
      omega
    | cons d ds ih =>
      intro n hn
      simp only [List.scanl_cons, List.singleton_append, List.map_cons, List.mem_cons] at hn
      rcases hn with hn | hn
      · omega
      · exact ih (UpdateSceneLights fm nl d s)
          (updateSceneLights_num_bounded fm nl d s hs) n hn
  · intro dt hfull
    have h1 := updateSceneLights_num_le fm nl dt s
    have h2 := updateSceneLights_num_bounded fm nl dt s hs
    omega
  · intro dt i hi
    exact spawnLoop_lights_hi nl s.pointLights s.numPointLights (s.emit - dt) i hi

/-- C3 witness: the monotonicity/capacity invariants applied to the
concrete initial state and the frame-time sequence `[0.001, 0.001]`. -/
theorem lightCount_monotone_bounded_witness :
    ((∀ d ∈ [(1:ℚ)/1000, 1/1000], 0 ≤ d) ∧
      SceneLightsInit.numPointLights ≤ MaxPointLights) ∧
    (List.Chain' (· ≤ ·)
      (([(1:ℚ)/1000, 1/1000].scanl
        (fun st d => UpdateSceneLights witnessFloatMath witnessNewLight d st)
          SceneLightsInit).map SceneLights.numPointLights) ∧
    (∀ n ∈ ([(1:ℚ)/1000, 1/1000].scanl
        (fun st d => UpdateSceneLights witnessFloatMath witnessNewLight d st)
          SceneLightsInit).map SceneLights.numPointLights, n ≤ MaxPointLights) ∧
    (∀ dt : ℚ, SceneLightsInit.numPointLights = MaxPointLights →
      (UpdateSceneLights witnessFloatMath witnessNewLight dt
        SceneLightsInit).numPointLights = MaxPointLights) ∧
    (∀ dt : ℚ, ∀ i,
      (spawnStep witnessNewLight dt SceneLightsInit).numPointLights ≤ i →
      (spawnStep witnessNewLight dt SceneLightsInit).pointLights i
        = SceneLightsInit.pointLights i)) :=
  ⟨⟨by norm_num, by rw [SceneLightsInit, MaxPointLights]; norm_num⟩,
    lightCount_monotone_bounded witnessFloatMath witnessNewLight
      [(1:ℚ)/1000, 1/1000] (by norm_num) SceneLightsInit
      (by rw [SceneLightsInit, MaxPointLights]; norm_num)⟩

/-- The seed light in slot 0 survives one full update untouched (the
spawn loop writes only slots at or above the incoming count, which is
at least 1, and the orbital update skips index 0). -/
theorem updateSceneLights_seed_fixed (fm : FloatMath) (nl : ℕ → SPointLight) (dt : ℚ)
    (s : SceneLights) (h : 1 ≤ s.numPointLights) :
    (UpdateSceneLights fm nl dt s).pointLights 0 = s.pointLights 0 := by
  show orbitStep fm dt (spawnStep nl dt s).pointLights (spawnStep nl dt s).numPointLights 0
    = s.pointLights 0
  rw [orbitStep]
  rw [if_neg (by omega)]
  exact spawnLoop_lights_lo nl s.pointLights s.numPointLights (s.emit - dt) 0 h

/-- C8: over any sequence of frames, the light in slot 0 is completely
unchanged, while the orbital update maps every other live light's
position to its rotation about the vertical axis by
`rotateSpeed * frameTime` radians, where
`rotateSpeed = (fmod(dist,1) - 0.5) * 200 / (dist + 0.1)` and `dist` is
the light's distance from the origin. -/
theorem orbit_seed_fixed_others_rotated (fm : FloatMath) (nl : ℕ → SPointLight)
    (dts : List ℚ) (s : SceneLights) (h : 1 ≤ s.numPointLights) :
    (dts.foldl (fun st d => UpdateSceneLights fm nl d st) s).pointLights 0
      = s.pointLights 0 ∧
    (∀ (dt : ℚ) (lights : ℕ → SPointLight) (num i : ℕ), 1 ≤ i → i < num →
      orbitStep fm dt lights num i
        = { lights i with
            position := RotateAboutY fm
              (((fmodf (CVector3Length fm (lights i).position) 1 + -(1/2)) * 200 /
                (CVector3Length fm (lights i).position + 1/10)) * dt)
              ((lights i).position) }) := by
  constructor
  · induction dts generalizing s with
    | nil => rfl
    | cons d ds ih =>
      rw [List.foldl_cons]
      rw [ih (UpdateSceneLights fm nl d s)
        (le_trans h (updateSceneLights_num_le fm nl d s))]
      exact updateSceneLights_seed_fixed fm nl d s h
  · intro dt lights num i h1 h2
    rw [orbitStep]
    rw [if_pos ⟨h1, h2⟩]

/-- C8 witness: the orbital-update theorem applied to the initial state
(which has one live light) over two frames. -/
theorem orbit_seed_fixed_witness :
    1 ≤ SceneLightsInit.numPointLights ∧
    (([(1:ℚ)/1000, 1/1000].foldl
        (fun st d => UpdateSceneLights witnessFloatMath witnessNewLight d st)
          SceneLightsInit).pointLights 0 = SceneLightsInit.pointLights 0 ∧
    (∀ (dt : ℚ) (lights : ℕ → SPointLight) (num i : ℕ), 1 ≤ i → i < num →
      orbitStep witnessFloatMath dt lights num i
        = { lights i with
            position := RotateAboutY witnessFloatMath
              (((fmodf (CVector3Length witnessFloatMath (lights i).position) 1 + -(1/2))
                  * 200 /
                (CVector3Length witnessFloatMath (lights i).position + 1/10)) * dt)
              ((lights i).position) })) :=
  ⟨by rw [SceneLightsInit],
    orbit_seed_fixed_others_rotated witnessFloatMath witnessNewLight
      [(1:ℚ)/1000, 1/1000] SceneLightsInit (by rw [SceneLightsInit])⟩

/-- C4 counterexample: when the buffer map fails, the upload step does
not return a renderer error (the HRESULT is ignored and the copy result
is reported as success). -/
theorem uploadPointLights_no_error_on_failure :
    UploadPointLights false PointLightsInit 1
      ≠ Except.error RendererError.lightBufferMapFailure := by
  rw [UploadPointLights]
  exact fun h => Except.noConfusion h

/-- C4 (amended): the per-frame upload step ignores the map outcome
entirely: its result does not depend on whether the map succeeded, it
always reports success, and it always copies the full live prefix; no
failure is propagated to the caller. -/
theorem uploadPointLights_ignores_map_result (mapSucceeded mapSucceeded2 : Bool)
    (lights : ℕ → SPointLight) (num : ℕ) :
    UploadPointLights mapSucceeded lights num = UploadPointLights mapSucceeded2 lights num ∧
    UploadPointLights mapSucceeded lights num
      = Except.ok ((List.range num).map fun i => lights i) :=
  ⟨rfl, rfl⟩

/-- C5 counterexample: one idle iteration of the main loop is not
update-then-render. -/
theorem mainLoop_not_update_then_render :
    MainLoopIterationEvents ≠ [FrameEvent.updateScene, FrameEvent.renderScene] := by
  decide

/-- C5 (amended): every idle iteration of the wWinMain loop executes
`RenderScene()` first and `UpdateScene(frameTime)` second, so the trace
of `n` iterations is `n` copies of render-then-update; each scene
update therefore precedes the *next* iteration's render, not the render
of its own iteration. -/
theorem mainLoop_render_then_update :
    MainLoopIterationEvents = [FrameEvent.renderScene, FrameEvent.updateScene] ∧
    (∀ n : ℕ, MainLoopTrace n = (List.replicate n MainLoopIterationEvents).flatten) := by
  refine ⟨rfl, fun n => ?_⟩
  induction n with
  | zero => rfl
  | succ n ih =>
    rw [show MainLoopTrace (n + 1) = MainLoopTrace n ++ MainLoopIterationEvents from rfl,
      ih, List.replicate_succ']
    simp

end Deferred
